import Mathlib

/-!
Verification of the session-authentication service of the repository
(supabase/functions/mobile-auth/index.ts, supabase/functions/manage-community/index.ts,
and the SQL function refresh_session) against its natural-language specification.

The embedding is shallow: each handler becomes a pure Lean function from an
explicit database state (lists of rows), the request, and explicit oracles for
the sources of nondeterminism (the generated session token, the current time in
milliseconds, and injected store failures) to a response together with the new
database state.  Machine integers are modelled as Nat with explicit `% 2 ^ 32`
where the source wraps.
-/

namespace Entrepedia

/-! ## SHA-256 (hashPassword in mobile-auth/index.ts uses crypto.subtle.digest) -/

/-- Truncation to a 32-bit word, written as the source's arithmetic wraps. -/
def w32 (x : Nat) : Nat := x % 4294967296

/-- Rotate the 32-bit word x right by n positions. -/
def rotr32 (x n : Nat) : Nat := w32 ((x >>> n) ||| (x <<< (32 - n)))

def smallSigma0 (x : Nat) : Nat := w32 ((rotr32 x 7) ^^^ (rotr32 x 18) ^^^ (x >>> 3))

def smallSigma1 (x : Nat) : Nat := w32 ((rotr32 x 17) ^^^ (rotr32 x 19) ^^^ (x >>> 10))

def bigSigma0 (x : Nat) : Nat := w32 ((rotr32 x 2) ^^^ (rotr32 x 13) ^^^ (rotr32 x 22))

def bigSigma1 (x : Nat) : Nat := w32 ((rotr32 x 6) ^^^ (rotr32 x 11) ^^^ (rotr32 x 25))

def chFn (x y z : Nat) : Nat := w32 ((x &&& y) ^^^ ((x ^^^ 4294967295) &&& z))

def majFn (x y z : Nat) : Nat := w32 ((x &&& y) ^^^ (x &&& z) ^^^ (y &&& z))

/-- The 64 SHA-256 round constants of FIPS 180-4, written in decimal. -/
def K256 : List Nat :=
  [1116352408, 1899447441, 3049323471, 3921009573, 961987163, 1508970993,
   2453635748, 2870763221, 3624381080, 310598401, 607225278, 1426881987,
   1925078388, 2162078206, 2614888103, 3248222580, 3835390401, 4022224774,
   264347078, 604807628, 770255983, 1249150122, 1555081692, 1996064986,
   2554220882, 2821834349, 2952996808, 3210313671, 3336571891, 3584528711,
   113926993, 338241895, 666307205, 773529912, 1294757372, 1396182291,
   1695183700, 1986661051, 2177026350, 2456956037, 2730485921, 2820302411,
   3259730800, 3345764771, 3516065817, 3600352804, 4094571909, 275423344,
   430227734, 506948616, 659060556, 883997877, 958139571, 1322822218,
   1537002063, 1747873779, 1955562222, 2024104815, 2227730452, 2361852424,
   2428436474, 2756734187, 3204031479, 3329325298]

/-- The eight initial hash words of SHA-256, written in decimal. -/
def H256init : List Nat :=
  [1779033703, 3144134277, 1013904242, 2773480762,
   1359893119, 2600822924, 528734635, 1541459225]

/-- Big-endian byte decomposition of a value into `n` bytes. -/
def natToBytesBE (n : Nat) (v : Nat) : List Nat :=
  (List.range n).map (fun i => (v >>> (8 * (n - 1 - i))) % 256)

/-- SHA-256 padding: append 0x80, zero bytes to 56 mod 64, then the bit length big-endian. -/
def sha256pad (msg : List Nat) : List Nat :=
  let len := msg.length
  let zeros := (120 - ((len + 1) % 64)) % 64
  msg ++ [0x80] ++ List.replicate zeros 0 ++ natToBytesBE 8 (len * 8)

/-- Group bytes into big-endian 32-bit words. -/
def bytesToWordsBE : List Nat → List Nat
  | a :: b :: c :: d :: rest => (w32 ((a <<< 24) + (b <<< 16) + (c <<< 8) + d)) :: bytesToWordsBE rest
  | _ => []

/-- Extend the 16-word message schedule by `n` further words. -/
def extendSchedule : Nat → List Nat → List Nat
  | 0, w => w
  | n + 1, w =>
    let i := w.length
    let wi := w32 (w.getD (i - 16) 0 + smallSigma0 (w.getD (i - 15) 0) +
                   w.getD (i - 7) 0 + smallSigma1 (w.getD (i - 2) 0))
    extendSchedule n (w ++ [wi])

/-- One SHA-256 compression round on the state [a,b,c,d,e,f,g,h]. -/
def compressStep (st : List Nat) (kw : Nat × Nat) : List Nat :=
  match st with
  | [a, b, c, d, e, f, g, h] =>
    let t1 := w32 (h + bigSigma1 e + chFn e f g + kw.1 + kw.2)
    let t2 := w32 (bigSigma0 a + majFn a b c)
    [w32 (t1 + t2), a, b, c, w32 (d + t1), e, f, g]
  | other => other

/-- Process one 64-byte chunk, updating the 8-word hash state. -/
def processChunk (h : List Nat) (chunk : List Nat) : List Nat :=
  let wsch := extendSchedule 48 (bytesToWordsBE chunk)
  let st := (K256.zip wsch).foldl compressStep h
  (h.zip st).map (fun p => w32 (p.1 + p.2))

/-- Process the padded message in 64-byte chunks (fuel = chunk count). -/
def processChunks : Nat → List Nat → List Nat → List Nat
  | 0, h, _ => h
  | n + 1, h, bytes => processChunks n (processChunk h (bytes.take 64)) (bytes.drop 64)

/-- SHA-256 of a byte sequence, as 32 output bytes. -/
def sha256bytes (msg : List Nat) : List Nat :=
  let padded := sha256pad msg
  let hs := processChunks (padded.length / 64) H256init padded
  hs.foldr (fun wrd acc => natToBytesBE 4 wrd ++ acc) []

/-- Lowercase hexadecimal digit, as produced by JavaScript toString(16). -/
def hexDigit (n : Nat) : Char :=
  if n < 10 then Char.ofNat (48 + n) else Char.ofNat (87 + n)

/-- Two lowercase hex digits for one byte: b.toString(16).padStart(2, "0"). -/
def byteToHex (b : Nat) : List Char :=
  [hexDigit (b / 16), hexDigit (b % 16)]

def bytesToHex (bs : List Nat) : String :=
  String.mk (bs.flatMap byteToHex)

/-- UTF-8 encoding of one character (what TextEncoder().encode produces per char). -/
def utf8Bytes (c : Char) : List Nat :=
  let v := c.toNat
  if v ≤ 0x7f then [v]
  else if v ≤ 0x7ff then
    [0xc0 ||| (v >>> 6), 0x80 ||| (v &&& 0x3f)]
  else if v ≤ 0xffff then
    [0xe0 ||| (v >>> 12), 0x80 ||| ((v >>> 6) &&& 0x3f), 0x80 ||| (v &&& 0x3f)]
  else
    [0xf0 ||| (v >>> 18), 0x80 ||| ((v >>> 12) &&& 0x3f),
     0x80 ||| ((v >>> 6) &&& 0x3f), 0x80 ||| (v &&& 0x3f)]

/-- UTF-8 bytes of a string, as TextEncoder().encode yields. -/
def stringUTF8 (s : String) : List Nat :=
  s.data.flatMap utf8Bytes

/-- hashPassword from mobile-auth/index.ts: SHA-256 of the UTF-8 bytes of the
password, hex-encoded lowercase. -/
def hashPassword (password : String) : String :=
  bytesToHex (sha256bytes (stringUTF8 password))

/-- verifyPassword from mobile-auth/index.ts: recompute the digest and compare. -/
def verifyPassword (password hash : String) : Bool :=
  hashPassword password == hash

/-! ## Data model

Rows of the three tables backing the authentication service.  `user_credentials`
is declared in supabase/migrations/20260119073225 (mobile_number UNIQUE).  The
`profiles` and `user_sessions` tables are not created under src; their columns
are modelled from the spec (section 3 and section 6: session table carrying
session_token unique, user_id, expires_at, is_active, updated_at).  Row ids
(uuids in the store) are modelled as Nat, timestamps as Nat milliseconds. -/

structure Credential where
  id : Nat
  mobile_number : String
  password_hash : String
deriving DecidableEq

structure Profile where
  id : Nat
  full_name : String
  mobile_number : String
  username : String
  is_online : Bool
deriving DecidableEq

structure Session where
  session_token : String
  user_id : Nat
  expires_at : Nat
  is_active : Bool
  updated_at : Nat
deriving DecidableEq

/-- The persistent state seen by the authentication service.  `nextId` models
the store's generator of fresh row identifiers (gen_random_uuid). -/
structure DB where
  credentials : List Credential
  profiles : List Profile
  sessions : List Session
  nextId : Nat
deriving DecidableEq

/-- Thirty days in milliseconds: 30 * 24 * 60 * 60 * 1000 in the source. -/
def thirtyDaysMs : Nat := 2592000000

/-- Supabase .maybeSingle(): the single matching row, or none; the second
component records the error raised when more than one row matches. -/
def maybeSingle {α : Type} (l : List α) (p : α → Bool) : Option α × Bool :=
  match l.filter p with
  | [] => (none, false)
  | [x] => (some x, false)
  | _ => (none, true)

/-- JavaScript truthiness of an optional string field: absent and "" are falsy. -/
def truthy : Option String → Bool
  | none => false
  | some s => !(s == "")

/-! ## The mobile-auth request handler -/

/-- Fields the handler destructures from the JSON body.  The admin hook
(useAdminAuthSupabase) additionally sends session_token, which the handler
never reads. -/
structure AuthRequest where
  action : Option String
  mobile_number : Option String
  password : Option String
  full_name : Option String
  username : Option String
  session_token : Option String
deriving DecidableEq

/-- The observable part of the HTTP response the handler builds. -/
structure AuthResponse where
  status : Nat
  success : Bool
  error : Option String
  user_id : Option Nat
  session_token : Option String
deriving DecidableEq

def errResp (status : Nat) (msg : String) : AuthResponse :=
  ⟨status, false, some msg, none, none⟩

def okResp (uid : Nat) (tok : String) : AuthResponse :=
  ⟨200, true, none, some uid, some tok⟩

/-- Injected store failures for the three inserts whose error the handler
checks (credential insert, profile insert, session insert). -/
structure StoreOracle where
  credInsertError : Bool
  profileInsertError : Bool
  sessionInsertError : Bool
deriving DecidableEq

def noStoreError : StoreOracle := ⟨false, false, false⟩

/-- The character class of the username format check /^[a-zA-Z0-9_]{3,30}$/. -/
def isUsernameChar (c : Char) : Bool :=
  (decide ('a' ≤ c) && decide (c ≤ 'z')) ||
  (decide ('A' ≤ c) && decide (c ≤ 'Z')) ||
  (decide ('0' ≤ c) && decide (c ≤ '9')) ||
  c == '_'

/-- usernameRegex.test(username) in the signup branch. -/
def usernameRegexTest (s : String) : Bool :=
  decide (3 ≤ s.length) && decide (s.length ≤ 30) && s.data.all isUsernameChar

/-- The spec's wording of the allowed username alphabet: letters, digits and
underscores. -/
def allowedUsernameChar (c : Char) : Prop :=
  ('a' ≤ c ∧ c ≤ 'z') ∨ ('A' ≤ c ∧ c ≤ 'Z') ∨ ('0' ≤ c ∧ c ≤ '9') ∨ c = '_'

instance : DecidablePred allowedUsernameChar := fun c => by
  unfold allowedUsernameChar
  infer_instance

/-- The toLowerCase call the handler applies to usernames.  Every username
reaching the call has passed the ASCII-only format regex, where JavaScript
toLowerCase agrees with per-character ASCII lowercasing. -/
def jsToLower (s : String) : String :=
  String.mk (s.data.map Char.toLower)

/-- The signup branch of mobile-auth/index.ts (lines 59-175): username format
check, mobile and username existence pre-checks, credential insert, profile
insert with compensating credential delete on failure, session insert. -/
def signupBranch (db : DB) (mobile password full_name username : String)
    (token : String) (now : Nat) (oc : StoreOracle) : AuthResponse × DB :=
  if !(usernameRegexTest username) then
    (errResp 400 "Username must be 3-30 characters and only contain letters, numbers, and underscores", db)
  else if (maybeSingle db.credentials (fun c => c.mobile_number == mobile)).1.isSome then
    (errResp 400 "This mobile number is already registered", db)
  else if (maybeSingle db.profiles (fun p => p.username == jsToLower username)).1.isSome then
    (errResp 400 "This username is already taken", db)
  else if oc.credInsertError then
    (errResp 500 "Failed to create account", db)
  else
    let passwordHash := hashPassword password
    let cid := db.nextId
    let db1 : DB := { db with
      credentials := db.credentials ++ [⟨cid, mobile, passwordHash⟩],
      nextId := db.nextId + 1 }
    if oc.profileInsertError then
      let db2 : DB := { db1 with
        credentials := db1.credentials.filter (fun c => !(c.id == cid)) }
      (errResp 500 "Failed to create profile", db2)
    else
      let db2 : DB := { db1 with
        profiles := db1.profiles ++ [⟨cid, full_name, mobile, jsToLower username, false⟩] }
      if oc.sessionInsertError then
        (errResp 500 "Failed to create session", db2)
      else
        let db3 : DB := { db2 with
          sessions := db2.sessions ++ [⟨token, cid, now + thirtyDaysMs, true, now⟩] }
        (okResp cid token, db3)

/-- The signin branch's invalidation update: set is_active false on every
session row of the given user. -/
def deactivateFor (uid : Nat) (s : Session) : Session :=
  if s.user_id == uid then { s with is_active := false } else s

/-- The signin branch of mobile-auth/index.ts (lines 177-253): credential
lookup, digest comparison, invalidation of the user's previous sessions,
insertion of the fresh session, online-flag update. -/
def signinBranch (db : DB) (mobile password : String)
    (token : String) (now : Nat) (oc : StoreOracle) : AuthResponse × DB :=
  match maybeSingle db.credentials (fun c => c.mobile_number == mobile) with
  | (none, _) => (errResp 401 "Invalid mobile number or password", db)
  | (some credentials, credError) =>
    if credError then
      (errResp 401 "Invalid mobile number or password", db)
    else if !(verifyPassword password credentials.password_hash) then
      (errResp 401 "Invalid mobile number or password", db)
    else
      let db1 : DB := { db with
        sessions := db.sessions.map (deactivateFor credentials.id) }
      if oc.sessionInsertError then
        (errResp 500 "Failed to create session", db1)
      else
        let db2 : DB := { db1 with
          sessions := db1.sessions ++ [⟨token, credentials.id, now + thirtyDaysMs, true, now⟩] }
        let db3 : DB := { db2 with
          profiles := db2.profiles.map (fun p =>
            if p.id == credentials.id then { p with is_online := true } else p) }
        (okResp credentials.id token, db3)

/-- The serve body of mobile-auth/index.ts after CORS and env handling:
required-fields check, then dispatch on the action string; any other action
(admin_validate included, which the code never implements) falls through to
the 400 Invalid action response. -/
def mobileAuth (db : DB) (req : AuthRequest)
    (token : String) (now : Nat) (oc : StoreOracle) : AuthResponse × DB :=
  if !(truthy req.mobile_number) || !(truthy req.password) then
    (errResp 400 "Mobile number and password are required", db)
  else
    let mobile := req.mobile_number.getD ""
    let password := req.password.getD ""
    if req.action == some "signup" then
      if !(truthy req.full_name) || !(truthy req.username) then
        (errResp 400 "Full name and username are required for signup", db)
      else
        signupBranch db mobile password (req.full_name.getD "") (req.username.getD "") token now oc
    else if req.action == some "signin" then
      signinBranch db mobile password token now oc
    else
      (errResp 400 "Invalid action", db)

/-! ## SQL functions on the session table -/

/-- The WHERE clause of refresh_session: session_token matches, is_active is
true, and expires_at is strictly in the future. -/
def sessionHit (tok : String) (now : Nat) (s : Session) : Bool :=
  s.session_token == tok && s.is_active && decide (now < s.expires_at)

/-- refresh_session from supabase/migrations/20260123041845: extend the expiry
of the session with the given token to now + 30 days, provided it is active
and not yet expired; return whether a row was updated. -/
def refresh_session (db : DB) (tok : String) (now : Nat) : Bool × DB :=
  let updated := db.sessions.map (fun s =>
    if sessionHit tok now s then { s with expires_at := now + thirtyDaysMs, updated_at := now } else s)
  (db.sessions.any (sessionHit tok now), { db with sessions := updated })

/-- Modelled from the spec: the SQL function validate_session is invoked by
manage-community via rpc but is not defined under src.  Per the spec (section
4.1 validate and section 6), it looks up the session row by token and returns
the owning user identifier when the active flag is true and the expiry is in
the future, and a null signal otherwise. -/
def validate_session (db : DB) (tok : String) (now : Nat) : Option Nat :=
  match db.sessions.find? (fun s => s.session_token == tok) with
  | some s => if s.is_active && decide (now < s.expires_at) then some s.user_id else none
  | none => none

/-! ## The manage-community request handler -/

structure Community where
  id : Nat
  name : String
  description : Option String
  cover_image_url : Option String
  created_by : Nat
deriving DecidableEq

structure CommunityMember where
  community_id : Nat
  user_id : Nat
  role : String
deriving DecidableEq

/-- A row of community_discussions (src/unnamed/part_001). -/
structure Discussion where
  id : Nat
  community_id : Nat
  user_id : Nat
  content : String
deriving DecidableEq

/-- The tables touched by manage-community/index.ts. -/
structure CommDB where
  communities : List Community
  community_members : List CommunityMember
  community_discussions : List Discussion
  nextId : Nat
deriving DecidableEq

/-- Request to manage-community: the x-session-token header plus the JSON body
fields the handler destructures.  Entity ids (uuid strings in the store) are
modelled as Nat. -/
structure CommRequest where
  session_token : Option String
  action : Option String
  community_id : Option Nat
  name : Option String
  description : Option String
  cover_image_url : Option String
  discussion_id : Option Nat
deriving DecidableEq

structure CommResponse where
  status : Nat
  success : Bool
  error : Option String
deriving DecidableEq

def cErr (status : Nat) (msg : String) : CommResponse := ⟨status, false, some msg⟩

def cOk : CommResponse := ⟨200, true, none⟩

/-- Deno.serve body of manage-community/index.ts: session validation from the
x-session-token header, then dispatch on the action.  `sdb` is the session
store queried by the validate_session rpc, `now` the current time. -/
def manageCommunity (sdb : DB) (cdb : CommDB) (req : CommRequest) (now : Nat) :
    CommResponse × CommDB :=
  if !(truthy req.session_token) then
    (cErr 401 "No session token provided", cdb)
  else
    match validate_session sdb (req.session_token.getD "") now with
    | none => (cErr 401 "Invalid or expired session", cdb)
    | some userId =>
      if req.action == some "create" then
        match req.name with
        | none => (cErr 400 "Community name is required", cdb)
        | some nm =>
          if nm.trim == "" then (cErr 400 "Community name is required", cdb)
          else
            let cid := cdb.nextId
            let cdb1 : CommDB := { cdb with
              communities := cdb.communities ++
                [⟨cid, nm.trim, (req.description.map String.trim), req.cover_image_url, userId⟩],
              nextId := cdb.nextId + 1 }
            let cdb2 : CommDB := { cdb1 with
              community_members := cdb1.community_members ++ [⟨cid, userId, "admin"⟩] }
            (cOk, cdb2)
      else if req.action == some "update" then
        match req.community_id with
        | none => (cErr 400 "Community ID is required", cdb)
        | some cid =>
          match (cdb.communities.filter (fun c => c.id == cid)).head? with
          | none => (cErr 403 "Not authorized to update this community", cdb)
          | some existing =>
            if !(existing.created_by == userId) then
              (cErr 403 "Not authorized to update this community", cdb)
            else
              let cdb1 : CommDB := { cdb with
                communities := cdb.communities.map (fun c =>
                  if c.id == cid then
                    { c with name := (req.name.getD c.name).trim,
                             description := req.description.map String.trim,
                             cover_image_url := req.cover_image_url }
                  else c) }
              (cOk, cdb1)
      else if req.action == some "delete" then
        match req.community_id with
        | none => (cErr 400 "Community ID is required", cdb)
        | some cid =>
          match (cdb.communities.filter (fun c => c.id == cid)).head? with
          | none => (cErr 403 "Not authorized to delete this community", cdb)
          | some existing =>
            if !(existing.created_by == userId) then
              (cErr 403 "Not authorized to delete this community", cdb)
            else
              let cdb1 : CommDB := { cdb with
                communities := cdb.communities.filter (fun c => !(c.id == cid)) }
              (cOk, cdb1)
      else if req.action == some "join" then
        match req.community_id with
        | none => (cErr 400 "Community ID is required", cdb)
        | some cid =>
          let cdb1 : CommDB := { cdb with
            community_members := cdb.community_members ++ [⟨cid, userId, "member"⟩] }
          (cOk, cdb1)
      else if req.action == some "leave" then
        match req.community_id with
        | none => (cErr 400 "Community ID is required", cdb)
        | some cid =>
          let cdb1 : CommDB := { cdb with
            community_members := cdb.community_members.filter (fun m =>
              !(m.community_id == cid && m.user_id == userId)) }
          (cOk, cdb1)
      else if req.action == some "delete_discussion" then
        match req.discussion_id with
        | none => (cErr 400 "Discussion ID is required", cdb)
        | some did =>
          match maybeSingle cdb.community_discussions (fun d => d.id == did) with
          | (none, _) => (cErr 404 "Discussion not found", cdb)
          | (some discussion, fetchError) =>
            if fetchError then (cErr 404 "Discussion not found", cdb)
            else
              let isOwner := discussion.user_id == userId
              let isAdmin :=
                if isOwner then false
                else
                  match (maybeSingle cdb.communities (fun c => c.id == discussion.community_id)).1 with
                  | some community => community.created_by == userId
                  | none => false
              if !isOwner && !isAdmin then
                (cErr 403 "Not authorized to delete this discussion", cdb)
              else
                let cdb1 : CommDB := { cdb with
                  community_discussions := cdb.community_discussions.filter (fun d => !(d.id == did)) }
                (cOk, cdb1)
      else
        (cErr 400 "Invalid action", cdb)

/-! ## Concrete states used by witnesses -/

def dbEmpty : DB := ⟨[], [], [], 0⟩

def cred1 : Credential := ⟨1, "9876543210", hashPassword "pw123"⟩

def dbC2 : DB := ⟨[cred1], [], [], 2⟩

def dbC3 : DB := ⟨[], [], [⟨"t1", 7, 1000, true, 0⟩, ⟨"t2", 7, 1000, false, 0⟩], 0⟩

def adminDb : DB := ⟨[⟨1, "9876543210", "h"⟩], [], [⟨"admtok", 1, 1000, true, 0⟩], 2⟩

def cdbEmpty : CommDB := ⟨[], [], [], 0⟩

def sdbC10 : DB := ⟨[], [], [⟨"sess10", 5, 1000, true, 0⟩, ⟨"sess11", 6, 1000, true, 0⟩], 0⟩

def cdbC10 : CommDB :=
  ⟨[⟨1, "c", none, none, 9⟩], [], [⟨2, 1, 5, "hello"⟩, ⟨3, 1, 9, "hi"⟩], 4⟩

/-! ## Helper lemmas -/

lemma filter_key_nil {α β : Type} [BEq β] [LawfulBEq β] (key : α → β) (m : β) (l : List α)
    (h : ∀ c ∈ l, ¬ key c = m) : l.filter (fun a => key a == m) = [] := by
  rw [List.filter_eq_nil_iff]
  intro a ha
  simpa using h a ha

lemma filter_key_singleton {α β : Type} [BEq β] [LawfulBEq β] (key : α → β) (m : β)
    (l : List α) (hpw : l.Pairwise (fun a b => key a ≠ key b)) :
    ∀ c ∈ l, key c = m → l.filter (fun a => key a == m) = [c] := by
  induction l with
  | nil => intro c hc; exact absurd hc (List.not_mem_nil c)
  | cons x xs ih =>
    rw [List.pairwise_cons] at hpw
    intro c hc hkey
    rcases List.mem_cons.mp hc with rfl | hcxs
    · have hnil : xs.filter (fun a => key a == m) = [] := by
        rw [List.filter_eq_nil_iff]
        intro a ha
        simp only [beq_iff_eq]
        intro hma
        exact hpw.1 a ha (hkey.trans hma.symm)
      simp [List.filter_cons, hkey, hnil]
    · have hxm : ¬ key x = m := fun hxm => hpw.1 c hcxs (hxm.trans hkey.symm)
      rw [List.filter_cons]
      simp only [beq_iff_eq, hxm, if_neg, Bool.false_eq_true, decide_eq_true_eq]
      exact ih hpw.2 c hcxs hkey

lemma maybeSingle_nil {α : Type} {l : List α} {p : α → Bool} (h : l.filter p = []) :
    maybeSingle l p = (none, false) := by
  unfold maybeSingle
  rw [h]

lemma maybeSingle_one {α : Type} {l : List α} {p : α → Bool} {c : α} (h : l.filter p = [c]) :
    maybeSingle l p = (some c, false) := by
  unfold maybeSingle
  rw [h]

lemma map_eq_self_of {α : Type} {f : α → α} :
    ∀ {l : List α}, (∀ x ∈ l, f x = x) → l.map f = l := by
  intro l h
  induction l with
  | nil => rfl
  | cons x xs ih =>
    simp only [List.map_cons, h x (List.mem_cons_self x xs),
      ih (fun y hy => h y (List.mem_cons_of_mem x hy))]

/-! ## Claim theorems -/

/-- C4: the spec table promises an admin_validate action answering a valid
session_token with roles[] and the user, and an invalid or expired one with
401.  The handler implements no such branch: an admin_validate request
carrying only a session_token dies in the required-fields check with status
400, and even with mobile_number and password supplied it falls to the 400
Invalid action response — never a roles payload, never a 401 — although the
presented token is perfectly valid (third conjunct).  The admin hook
useAdminAuthSupabase in this repository invokes exactly this action, so the
code contradicts its own caller. -/
theorem adminValidate_not_implemented :
    (mobileAuth adminDb ⟨some "admin_validate", none, none, none, none, some "admtok"⟩
        "t" 500 noStoreError).1 = errResp 400 "Mobile number and password are required"
    ∧ (mobileAuth adminDb ⟨some "admin_validate", some "9876543210", some "pw", none, none,
        some "admtok"⟩ "t" 500 noStoreError).1 = errResp 400 "Invalid action"
    ∧ validate_session adminDb "admtok" 500 = some 1 := by
  refine ⟨rfl, ?_, rfl⟩
  rfl

/-- C3: refresh_session returns true and extends the expiry to now plus 30
days exactly when a session row with the token exists that is active and
strictly unexpired; it returns false and leaves every session row unchanged
otherwise, and never touches non-matching rows. -/
theorem refresh_session_spec (db : DB) (tok : String) (now : Nat) :
    ((refresh_session db tok now).1 = true ↔
      ∃ s ∈ db.sessions, s.session_token = tok ∧ s.is_active = true ∧ now < s.expires_at)
    ∧ ((refresh_session db tok now).1 = false → (refresh_session db tok now).2 = db)
    ∧ (∀ s ∈ db.sessions,
        ((s.session_token = tok ∧ s.is_active = true ∧ now < s.expires_at) →
          { s with expires_at := now + thirtyDaysMs, updated_at := now }
            ∈ (refresh_session db tok now).2.sessions)
        ∧ (¬(s.session_token = tok ∧ s.is_active = true ∧ now < s.expires_at) →
          s ∈ (refresh_session db tok now).2.sessions)) := by
  have hiff : ∀ s : Session, sessionHit tok now s = true ↔
      (s.session_token = tok ∧ s.is_active = true ∧ now < s.expires_at) := by
    intro s
    simp [sessionHit, Bool.and_assoc, and_assoc]
  refine ⟨?_, ?_, ?_⟩
  · rw [show (refresh_session db tok now).1 = db.sessions.any (sessionHit tok now) from rfl,
      List.any_eq_true]
    constructor
    · rintro ⟨s, hs, hp⟩
      exact ⟨s, hs, (hiff s).mp hp⟩
    · rintro ⟨s, hs, hp⟩
      exact ⟨s, hs, (hiff s).mpr hp⟩
  · intro hfalse
    rw [show (refresh_session db tok now).1 = db.sessions.any (sessionHit tok now) from rfl,
      List.any_eq_false] at hfalse
    have hmap : db.sessions.map (fun s =>
        if sessionHit tok now s then { s with expires_at := now + thirtyDaysMs, updated_at := now }
        else s) = db.sessions := by
      apply map_eq_self_of
      intro s hs
      have hfs : sessionHit tok now s = false := Bool.eq_false_iff.mpr (hfalse s hs)
      simp [hfs]
    show ({ db with sessions := _ } : DB) = db
    rw [hmap]
  · intro s hs
    constructor
    · rintro ⟨h1, h2, h3⟩
      have hfs : sessionHit tok now s = true := (hiff s).mpr ⟨h1, h2, h3⟩
      refine List.mem_map.mpr ⟨s, hs, ?_⟩
      simp [hfs]
    · intro hno
      have hfs : sessionHit tok now s = false :=
        Bool.eq_false_iff.mpr (fun ht => hno ((hiff s).mp ht))
      refine List.mem_map.mpr ⟨s, hs, ?_⟩
      simp [hfs]

/-- Witness for C3 at a concrete state: the active unexpired session t1 is
refreshed (true), and a call on the inactive session t2 leaves the state
untouched. -/
theorem refresh_session_spec_witness :
    (refresh_session dbC3 "t1" 500).1 = true ∧ (refresh_session dbC3 "t2" 500).2 = dbC3 := by
  constructor
  · exact (refresh_session_spec dbC3 "t1" 500).1.mpr
      ⟨⟨"t1", 7, 1000, true, 0⟩, by decide, rfl, rfl, by decide⟩
  · exact (refresh_session_spec dbC3 "t2" 500).2.1 (by decide)

/-- C9: for every action of the community-management handler, a request with
no (or empty) x-session-token header, or whose token validate_session does not
map to a user, is answered 401 and leaves every community table unchanged;
hence a privileged write happens only after validation returned a user. -/
theorem manageCommunity_unauthenticated (sdb : DB) (cdb : CommDB) (req : CommRequest) (now : Nat)
    (h : truthy req.session_token = false
      ∨ validate_session sdb (req.session_token.getD "") now = none) :
    (manageCommunity sdb cdb req now).1.status = 401
    ∧ (manageCommunity sdb cdb req now).2 = cdb := by
  unfold manageCommunity
  rcases h with h | h
  · simp [h, cErr]
  · cases ht : truthy req.session_token
    · simp [cErr]
    · simp [h, cErr]

lemma allowedUsernameChar_iff (c : Char) : allowedUsernameChar c ↔ isUsernameChar c = true := by
  unfold allowedUsernameChar isUsernameChar
  simp [or_assoc]

lemma usernameRegexTest_iff (s : String) :
    usernameRegexTest s = true ↔
      (3 ≤ s.length ∧ s.length ≤ 30 ∧ ∀ c ∈ s.data, allowedUsernameChar c) := by
  unfold usernameRegexTest
  simp [List.all_eq_true, allowedUsernameChar_iff, and_assoc]

lemma signup_bad_username (db : DB) (m pw fn un : String) (st : Option String) (token : String)
    (now : Nat) (oc : StoreOracle) (hreg : usernameRegexTest un = false) :
    (mobileAuth db ⟨some "signup", some m, some pw, some fn, some un, st⟩ token now oc).1.status = 400
    ∧ (mobileAuth db ⟨some "signup", some m, some pw, some fn, some un, st⟩ token now oc).1.success = false
    ∧ (mobileAuth db ⟨some "signup", some m, some pw, some fn, some un, st⟩ token now oc).2 = db := by
  unfold mobileAuth
  split
  · exact ⟨rfl, rfl, rfl⟩
  · rw [if_pos (by decide : ((some "signup" : Option String) == some "signup") = true)]
    split
    · exact ⟨rfl, rfl, rfl⟩
    · unfold signupBranch
      rw [if_pos (by simp [hreg])]
      exact ⟨rfl, rfl, rfl⟩

lemma signup_success (db : DB) (m pw fn un : String) (st : Option String) (token : String)
    (now : Nat)
    (hm : m ≠ "") (hp : pw ≠ "") (hf : fn ≠ "") (hu : un ≠ "")
    (hreg : usernameRegexTest un = true)
    (hmob : ∀ c ∈ db.credentials, c.mobile_number ≠ m)
    (husr : ∀ p ∈ db.profiles, p.username ≠ jsToLower un) :
    mobileAuth db ⟨some "signup", some m, some pw, some fn, some un, st⟩ token now noStoreError
      = (okResp db.nextId token,
         ⟨db.credentials ++ [⟨db.nextId, m, hashPassword pw⟩],
          db.profiles ++ [⟨db.nextId, fn, m, jsToLower un, false⟩],
          db.sessions ++ [⟨token, db.nextId, now + thirtyDaysMs, true, now⟩],
          db.nextId + 1⟩) := by
  have hfc : db.credentials.filter (fun c => c.mobile_number == m) = [] :=
    filter_key_nil (fun c : Credential => c.mobile_number) m db.credentials hmob
  have hfp : db.profiles.filter (fun p => p.username == jsToLower un) = [] :=
    filter_key_nil (fun p : Profile => p.username) (jsToLower un) db.profiles husr
  have h3 : maybeSingle db.credentials (fun c => c.mobile_number == m) = (none, false) :=
    maybeSingle_nil hfc
  have h4 : maybeSingle db.profiles (fun p => p.username == jsToLower un) = (none, false) :=
    maybeSingle_nil hfp
  simp only [mobileAuth, signupBranch, Option.getD_some, truthy, noStoreError, h3, h4]
  simp [hm, hp, hf, hu, hreg]

lemma signup_rollback_eq (db : DB) (m pw fn un : String) (st : Option String) (token : String)
    (now : Nat) (oc : StoreOracle)
    (hm : m ≠ "") (hp : pw ≠ "") (hf : fn ≠ "") (hu : un ≠ "")
    (hreg : usernameRegexTest un = true)
    (hmob : ∀ c ∈ db.credentials, c.mobile_number ≠ m)
    (husr : ∀ p ∈ db.profiles, p.username ≠ jsToLower un)
    (hco : oc.credInsertError = false) (hpo : oc.profileInsertError = true) :
    mobileAuth db ⟨some "signup", some m, some pw, some fn, some un, st⟩ token now oc
      = (errResp 500 "Failed to create profile",
         ⟨(db.credentials ++ [(⟨db.nextId, m, hashPassword pw⟩ : Credential)]).filter
            (fun c => !(c.id == db.nextId)),
          db.profiles, db.sessions, db.nextId + 1⟩) := by
  have hfc : db.credentials.filter (fun c => c.mobile_number == m) = [] :=
    filter_key_nil (fun c : Credential => c.mobile_number) m db.credentials hmob
  have hfp : db.profiles.filter (fun p => p.username == jsToLower un) = [] :=
    filter_key_nil (fun p : Profile => p.username) (jsToLower un) db.profiles husr
  have h3 : maybeSingle db.credentials (fun c => c.mobile_number == m) = (none, false) :=
    maybeSingle_nil hfc
  have h4 : maybeSingle db.profiles (fun p => p.username == jsToLower un) = (none, false) :=
    maybeSingle_nil hfp
  simp only [mobileAuth, signupBranch, Option.getD_some, truthy, h3, h4, hco, hpo]
  simp [hm, hp, hf, hu, hreg]

/-- C5: when the credential insert succeeds but the profile insert fails, the
handler reports 500 and first deletes the credential row it just created, so
the credential, profile and session tables are all exactly as before the
request: no credential without a matching profile survives the flow. -/
theorem signup_profile_rollback (db : DB) (m pw fn un : String) (st : Option String)
    (token : String) (now : Nat) (oc : StoreOracle)
    (hm : m ≠ "") (hp : pw ≠ "") (hf : fn ≠ "") (hu : un ≠ "")
    (hreg : usernameRegexTest un = true)
    (hmob : ∀ c ∈ db.credentials, c.mobile_number ≠ m)
    (husr : ∀ p ∈ db.profiles, p.username ≠ jsToLower un)
    (hfresh : ∀ c ∈ db.credentials, c.id ≠ db.nextId)
    (hco : oc.credInsertError = false) (hpo : oc.profileInsertError = true) :
    (mobileAuth db ⟨some "signup", some m, some pw, some fn, some un, st⟩ token now oc).1
      = errResp 500 "Failed to create profile"
    ∧ (mobileAuth db ⟨some "signup", some m, some pw, some fn, some un, st⟩ token now oc).2.credentials
      = db.credentials
    ∧ (mobileAuth db ⟨some "signup", some m, some pw, some fn, some un, st⟩ token now oc).2.profiles
      = db.profiles
    ∧ (mobileAuth db ⟨some "signup", some m, some pw, some fn, some un, st⟩ token now oc).2.sessions
      = db.sessions := by
  rw [signup_rollback_eq db m pw fn un st token now oc hm hp hf hu hreg hmob husr hco hpo]
  refine ⟨rfl, ?_, rfl, rfl⟩
  show (db.credentials ++ [(⟨db.nextId, m, hashPassword pw⟩ : Credential)]).filter
      (fun c => !(c.id == db.nextId)) = db.credentials
  rw [List.filter_append]
  have h1 : db.credentials.filter (fun c => !(c.id == db.nextId)) = db.credentials := by
    rw [List.filter_eq_self]
    intro c hc
    simp [hfresh c hc]
  have h2 : ([⟨db.nextId, m, hashPassword pw⟩] : List Credential).filter
      (fun c => !(c.id == db.nextId)) = [] := by
    simp
  rw [h1, h2, List.append_nil]

/-- Witness for C5: on the empty store, a signup whose profile insert is made
to fail reports 500 and leaves all three tables empty. -/
theorem signup_profile_rollback_witness :
    (mobileAuth dbEmpty ⟨some "signup", some "5551234", some "pw", some "Jo", some "abc", none⟩
        "tk" 0 ⟨false, true, false⟩).1 = errResp 500 "Failed to create profile"
    ∧ (mobileAuth dbEmpty ⟨some "signup", some "5551234", some "pw", some "Jo", some "abc", none⟩
        "tk" 0 ⟨false, true, false⟩).2.credentials = dbEmpty.credentials :=
  have h := signup_profile_rollback dbEmpty "5551234" "pw" "Jo" "abc" none "tk" 0
    ⟨false, true, false⟩ (by decide) (by decide) (by decide) (by decide) (by decide)
    (by simp [dbEmpty]) (by simp [dbEmpty]) (by simp [dbEmpty]) rfl rfl
  ⟨h.1, h.2.1⟩

lemma signin_success_eq (db : DB) (m pw : String) (fn un st : Option String) (token : String)
    (now : Nat) (oc : StoreOracle) (cred : Credential)
    (hm : m ≠ "") (hp : pw ≠ "")
    (hms : maybeSingle db.credentials (fun c => c.mobile_number == m) = (some cred, false))
    (hv : verifyPassword pw cred.password_hash = true)
    (hoc : oc.sessionInsertError = false) :
    mobileAuth db ⟨some "signin", some m, some pw, fn, un, st⟩ token now oc
      = (okResp cred.id token,
         ⟨db.credentials,
          db.profiles.map (fun p => if p.id == cred.id then { p with is_online := true } else p),
          db.sessions.map (deactivateFor cred.id)
            ++ [⟨token, cred.id, now + thirtyDaysMs, true, now⟩],
          db.nextId⟩) := by
  simp only [mobileAuth, signinBranch, Option.getD_some, truthy, hms, hv, hoc]
  simp [hm, hp]

lemma signin_fail_eq (db : DB) (m pw : String) (fn un st : Option String) (token : String)
    (now : Nat) (oc : StoreOracle)
    (hm : m ≠ "") (hp : pw ≠ "")
    (h : (maybeSingle db.credentials (fun c => c.mobile_number == m)).1 = none
       ∨ ∃ cred, maybeSingle db.credentials (fun c => c.mobile_number == m) = (some cred, false)
           ∧ verifyPassword pw cred.password_hash = false) :
    mobileAuth db ⟨some "signin", some m, some pw, fn, un, st⟩ token now oc
      = (errResp 401 "Invalid mobile number or password", db) := by
  rcases h with h | ⟨cred, hms, hv⟩
  · rcases hp2 : maybeSingle db.credentials (fun c => c.mobile_number == m) with ⟨o, b⟩
    rw [hp2] at h
    simp only at h
    subst h
    simp only [mobileAuth, signinBranch, Option.getD_some, truthy, hp2]
    simp [hm, hp]
  · simp only [mobileAuth, signinBranch, Option.getD_some, truthy, hms, hv]
    simp [hm, hp]

lemma signin_success_inv (db : DB) (m pw : String) (fn un st : Option String) (token : String)
    (now : Nat) (oc : StoreOracle)
    (h : (mobileAuth db ⟨some "signin", some m, some pw, fn, un, st⟩ token now oc).1.success
        = true) :
    m ≠ "" ∧ pw ≠ ""
    ∧ ∃ cred, maybeSingle db.credentials (fun c => c.mobile_number == m) = (some cred, false)
        ∧ verifyPassword pw cred.password_hash = true ∧ oc.sessionInsertError = false := by
  by_cases hm : m = ""
  · subst hm
    simp [mobileAuth, truthy, errResp] at h
  by_cases hp : pw = ""
  · subst hp
    simp [mobileAuth, truthy, errResp] at h
  refine ⟨hm, hp, ?_⟩
  rcases hms : maybeSingle db.credentials (fun c => c.mobile_number == m) with ⟨o, b⟩
  cases o with
  | none =>
    rw [signin_fail_eq db m pw fn un st token now oc hm hp (Or.inl (by rw [hms]))] at h
    simp [errResp] at h
  | some cred =>
    have hbf : b = false := by
      by_contra hb
      rw [Bool.not_eq_false] at hb
      subst hb
      simp only [mobileAuth, signinBranch, Option.getD_some, truthy, hms] at h
      simp [hm, hp, errResp] at h
    subst hbf
    by_cases hv : verifyPassword pw cred.password_hash = true
    · by_cases hoc : oc.sessionInsertError = true
      · simp only [mobileAuth, signinBranch, Option.getD_some, truthy, hms, hv, hoc] at h
        simp [hm, hp, errResp] at h
      · exact ⟨cred, rfl, hv, Bool.not_eq_true _ |>.mp hoc⟩
    · rw [signin_fail_eq db m pw fn un st token now oc hm hp
        (Or.inr ⟨cred, hms, Bool.not_eq_true _ |>.mp hv⟩)] at h
      simp [errResp] at h

lemma deactivateFor_token (uid : Nat) (s : Session) :
    (deactivateFor uid s).session_token = s.session_token := by
  unfold deactivateFor
  by_cases h : (s.user_id == uid) = true <;> simp [h]

/-- C1: after two consecutive successful signins for the same user, the first
token's session row has been marked inactive by the second signin, so
validate_session rejects the first token (at every time), while the second
token's freshly inserted session validates.  The token freshness and
distinctness hypotheses model the 32-byte cryptographic randomness of
generateSessionToken and the spec invariant that a token identifies at most
one session row. -/
theorem double_signin_invalidates (db : DB) (m pw : String) (fn un st : Option String)
    (t1 t2 : String) (now1 now2 now3 : Nat) (oc : StoreOracle)
    (hfresh : ∀ s ∈ db.sessions, s.session_token ≠ t1 ∧ s.session_token ≠ t2)
    (ht : t1 ≠ t2)
    (h1 : (mobileAuth db ⟨some "signin", some m, some pw, fn, un, st⟩ t1 now1 oc).1.success
        = true)
    (h2 : (mobileAuth ((mobileAuth db ⟨some "signin", some m, some pw, fn, un, st⟩ t1 now1 oc).2)
            ⟨some "signin", some m, some pw, fn, un, st⟩ t2 now2 oc).1.success = true) :
    validate_session
        (mobileAuth ((mobileAuth db ⟨some "signin", some m, some pw, fn, un, st⟩ t1 now1 oc).2)
          ⟨some "signin", some m, some pw, fn, un, st⟩ t2 now2 oc).2 t1 now3 = none
    ∧ ∃ uid, validate_session
        (mobileAuth ((mobileAuth db ⟨some "signin", some m, some pw, fn, un, st⟩ t1 now1 oc).2)
          ⟨some "signin", some m, some pw, fn, un, st⟩ t2 now2 oc).2 t2 now2 = some uid := by
  obtain ⟨hm, hp, cred, hms, hv, hoc⟩ := signin_success_inv db m pw fn un st t1 now1 oc h1
  have hE1 := signin_success_eq db m pw fn un st t1 now1 oc cred hm hp hms hv hoc
  have hdb1 : (mobileAuth db ⟨some "signin", some m, some pw, fn, un, st⟩ t1 now1 oc).2
      = ⟨db.credentials,
         db.profiles.map (fun p => if p.id == cred.id then { p with is_online := true } else p),
         db.sessions.map (deactivateFor cred.id)
           ++ [(⟨t1, cred.id, now1 + thirtyDaysMs, true, now1⟩ : Session)],
         db.nextId⟩ := by
    rw [hE1]
  generalize hg : (⟨db.credentials,
         db.profiles.map (fun p => if p.id == cred.id then { p with is_online := true } else p),
         db.sessions.map (deactivateFor cred.id)
           ++ [(⟨t1, cred.id, now1 + thirtyDaysMs, true, now1⟩ : Session)],
         db.nextId⟩ : DB) = db1 at hdb1
  have h1c : db1.credentials = db.credentials := by
    rw [← hg]
  have h1s : db1.sessions = db.sessions.map (deactivateFor cred.id)
      ++ [(⟨t1, cred.id, now1 + thirtyDaysMs, true, now1⟩ : Session)] := by
    rw [← hg]
  have hmsL : maybeSingle db1.credentials (fun c => c.mobile_number == m) = (some cred, false) := by
    rw [h1c]
    exact hms
  have hE2 := signin_success_eq db1 m pw fn un st t2 now2 oc cred hm hp hmsL hv hoc
  have hsess2 : (mobileAuth db1 ⟨some "signin", some m, some pw, fn, un, st⟩ t2 now2 oc).2.sessions
      = db1.sessions.map (deactivateFor cred.id)
        ++ [(⟨t2, cred.id, now2 + thirtyDaysMs, true, now2⟩ : Session)] := by
    rw [hE2]
  have hd1 : deactivateFor cred.id (⟨t1, cred.id, now1 + thirtyDaysMs, true, now1⟩ : Session)
      = ⟨t1, cred.id, now1 + thirtyDaysMs, false, now1⟩ := by
    simp [deactivateFor]
  have hpre : ∀ tk : String, (∀ s ∈ db.sessions, s.session_token ≠ tk) →
      ((db.sessions.map (deactivateFor cred.id)).map (deactivateFor cred.id)).find?
        (fun s => s.session_token == tk) = none := by
    intro tk htk
    rw [List.find?_eq_none]
    intro x hx
    rw [List.mem_map] at hx
    obtain ⟨y, hy, rfl⟩ := hx
    rw [List.mem_map] at hy
    obtain ⟨z, hz, rfl⟩ := hy
    simp [deactivateFor_token, htk z hz]
  rw [hdb1]
  constructor
  · unfold validate_session
    rw [hsess2, h1s]
    rw [List.map_append, List.find?_append, List.find?_append,
      hpre t1 (fun s hs => (hfresh s hs).1)]
    simp only [List.map_cons, List.map_nil, hd1]
    simp [ht]
  · refine ⟨cred.id, ?_⟩
    unfold validate_session
    rw [hsess2, h1s]
    have hlt : now2 < now2 + thirtyDaysMs := by
      unfold thirtyDaysMs
      omega
    rw [List.map_append, List.find?_append, List.find?_append,
      hpre t2 (fun s hs => (hfresh s hs).2)]
    simp only [List.map_cons, List.map_nil, hd1]
    have hne : (t1 == t2) = false := by
      simp [ht]
    simp [hne, hlt]

/-- Witness for C1: two concrete signins with tokens tk1 and tk2 on a store
holding one credential; afterwards tk1 no longer validates and tk2 does. -/
theorem double_signin_invalidates_witness :
    validate_session
        (mobileAuth ((mobileAuth dbC2 ⟨some "signin", some "9876543210", some "pw123",
            none, none, none⟩ "tk1" 10 noStoreError).2)
          ⟨some "signin", some "9876543210", some "pw123", none, none, none⟩ "tk2" 20
          noStoreError).2 "tk1" 999 = none
    ∧ ∃ uid, validate_session
        (mobileAuth ((mobileAuth dbC2 ⟨some "signin", some "9876543210", some "pw123",
            none, none, none⟩ "tk1" 10 noStoreError).2)
          ⟨some "signin", some "9876543210", some "pw123", none, none, none⟩ "tk2" 20
          noStoreError).2 "tk2" 20 = some uid :=
  double_signin_invalidates dbC2 "9876543210" "pw123" none none none "tk1" "tk2" 10 20 999
    noStoreError (by simp [dbC2]) (by decide) (by decide) (by decide)

/-- C2 counterexample: the claim quantifies over every input, but with the
empty password (a failure case: no credential for the mobile number, and the
digest of "" matches nothing in the empty store) the handler answers 400 with
the required-fields message, not the generic 401 AuthError. -/
theorem authenticate_c2_counterexample :
    dbEmpty.credentials = []
    ∧ (mobileAuth dbEmpty ⟨some "signin", some "5551234", some "", none, none, none⟩
        "tk" 0 noStoreError).1.status = 400
    ∧ (mobileAuth dbEmpty ⟨some "signin", some "5551234", some "", none, none, none⟩
        "tk" 0 noStoreError).1.error = some "Mobile number and password are required" := by
  exact ⟨rfl, rfl, rfl⟩

/-- C2 (amended to requests whose mobile_number and password are non-empty,
which the handler's required-fields gate otherwise rejects with 400 before the
signin logic runs): signin succeeds exactly when a credential row carries the
mobile number and the SHA-256 digest of the password equals the stored digest,
and in both failure cases — no credential, or digest mismatch — it returns the
same generic 401 response, indistinguishably.  The pairwise hypothesis is the
UNIQUE constraint on user_credentials.mobile_number from the migration. -/
theorem authenticate_iff (db : DB) (m pw : String) (fn un st : Option String)
    (token : String) (now : Nat)
    (hm : m ≠ "") (hp : pw ≠ "")
    (huniq : db.credentials.Pairwise (fun a b => a.mobile_number ≠ b.mobile_number)) :
    ((mobileAuth db ⟨some "signin", some m, some pw, fn, un, st⟩ token now noStoreError).1.success
        = true
      ↔ ∃ c ∈ db.credentials, c.mobile_number = m ∧ hashPassword pw = c.password_hash)
    ∧ ((¬ ∃ c ∈ db.credentials, c.mobile_number = m ∧ hashPassword pw = c.password_hash) →
        (mobileAuth db ⟨some "signin", some m, some pw, fn, un, st⟩ token now noStoreError).1
          = errResp 401 "Invalid mobile number or password") := by
  by_cases hex : ∃ c ∈ db.credentials, c.mobile_number = m ∧ hashPassword pw = c.password_hash
  · obtain ⟨c, hcmem, hcm, hch⟩ := hex
    have hfil : db.credentials.filter (fun a => a.mobile_number == m) = [c] :=
      filter_key_singleton (fun c : Credential => c.mobile_number) m db.credentials huniq c hcmem hcm
    have hms : maybeSingle db.credentials (fun a => a.mobile_number == m) = (some c, false) :=
      maybeSingle_one hfil
    have hv : verifyPassword pw c.password_hash = true := by
      simp [verifyPassword, ← hch]
    rw [signin_success_eq db m pw fn un st token now noStoreError c hm hp hms hv rfl]
    refine ⟨⟨fun _ => ⟨c, hcmem, hcm, hch⟩, fun _ => rfl⟩, ?_⟩
    intro hno
    exact absurd ⟨c, hcmem, hcm, hch⟩ hno
  · by_cases hc : ∃ c ∈ db.credentials, c.mobile_number = m
    · obtain ⟨c, hcmem, hcm⟩ := hc
      have hfil : db.credentials.filter (fun a => a.mobile_number == m) = [c] :=
        filter_key_singleton (fun c : Credential => c.mobile_number) m db.credentials huniq
          c hcmem hcm
      have hms : maybeSingle db.credentials (fun a => a.mobile_number == m) = (some c, false) :=
        maybeSingle_one hfil
      have hvne : ¬ hashPassword pw = c.password_hash := fun hch => hex ⟨c, hcmem, hcm, hch⟩
      have hv : verifyPassword pw c.password_hash = false := by
        simp [verifyPassword, hvne]
      rw [signin_fail_eq db m pw fn un st token now noStoreError hm hp (Or.inr ⟨c, hms, hv⟩)]
      exact ⟨by simp [errResp, hex], fun _ => rfl⟩
    · have hfil : db.credentials.filter (fun a => a.mobile_number == m) = [] := by
        apply filter_key_nil (fun c : Credential => c.mobile_number) m
        intro a ha hma
        exact hc ⟨a, ha, hma⟩
      have hms : maybeSingle db.credentials (fun a => a.mobile_number == m) = (none, false) :=
        maybeSingle_nil hfil
      rw [signin_fail_eq db m pw fn un st token now noStoreError hm hp (Or.inl (by rw [hms]))]
      exact ⟨by simp [errResp, hex], fun _ => rfl⟩

/-- Witness for C2 (amended): on a store holding the credential for mobile
9876543210 with the digest of pw123, signin with the right password succeeds,
and signin with a wrong password yields the generic 401. -/
theorem authenticate_iff_witness :
    (mobileAuth dbC2 ⟨some "signin", some "9876543210", some "pw123", none, none, none⟩
        "tk" 0 noStoreError).1.success = true
    ∧ (mobileAuth dbC2 ⟨some "signin", some "9876543210", some "wrong", none, none, none⟩
        "tk" 0 noStoreError).1 = errResp 401 "Invalid mobile number or password" :=
  ⟨(authenticate_iff dbC2 "9876543210" "pw123" none none none "tk" 0 (by decide) (by decide)
      (by simp [dbC2, cred1])).1.mpr
      ⟨cred1, by simp [dbC2], rfl, rfl⟩,
   (authenticate_iff dbC2 "9876543210" "wrong" none none none "tk" 0 (by decide) (by decide)
      (by simp [dbC2, cred1])).2
      (by
        rintro ⟨c, hc, hcm, hch⟩
        simp only [dbC2, cred1, List.mem_singleton] at hc
        subst hc
        simp only [cred1] at hch
        exact absurd hch (by decide))⟩

/-- C8: a fresh valid registration immediately followed by a signin with the
same mobile number and password succeeds, and the two calls hand out exactly
the two (distinct) generated tokens, so the signin session token differs from
the registration one. -/
theorem register_then_authenticate (db : DB) (m pw fn un : String) (st st2 fn2 un2 : Option String)
    (t1 t2 : String) (now1 now2 : Nat)
    (hm : m ≠ "") (hp : pw ≠ "") (hf : fn ≠ "") (hu : un ≠ "")
    (hreg : usernameRegexTest un = true)
    (hmob : ∀ c ∈ db.credentials, c.mobile_number ≠ m)
    (husr : ∀ p ∈ db.profiles, p.username ≠ jsToLower un)
    (ht : t1 ≠ t2) :
    (mobileAuth db ⟨some "signup", some m, some pw, some fn, some un, st⟩ t1 now1 noStoreError).1
      = okResp db.nextId t1
    ∧ (mobileAuth ((mobileAuth db ⟨some "signup", some m, some pw, some fn, some un, st⟩
          t1 now1 noStoreError).2)
        ⟨some "signin", some m, some pw, fn2, un2, st2⟩ t2 now2 noStoreError).1.success = true
    ∧ (mobileAuth ((mobileAuth db ⟨some "signup", some m, some pw, some fn, some un, st⟩
          t1 now1 noStoreError).2)
        ⟨some "signin", some m, some pw, fn2, un2, st2⟩ t2 now2 noStoreError).1.session_token
      = some t2
    ∧ (mobileAuth db ⟨some "signup", some m, some pw, some fn, some un, st⟩ t1 now1
        noStoreError).1.session_token
      ≠ (mobileAuth ((mobileAuth db ⟨some "signup", some m, some pw, some fn, some un, st⟩
          t1 now1 noStoreError).2)
        ⟨some "signin", some m, some pw, fn2, un2, st2⟩ t2 now2 noStoreError).1.session_token := by
  have hE := signup_success db m pw fn un st t1 now1 hm hp hf hu hreg hmob husr
  have hfcB : (db.credentials ++ [(⟨db.nextId, m, hashPassword pw⟩ : Credential)]).filter
      (fun c => c.mobile_number == m) = [⟨db.nextId, m, hashPassword pw⟩] := by
    rw [List.filter_append,
      filter_key_nil (fun c : Credential => c.mobile_number) m db.credentials hmob]
    simp
  have hms : maybeSingle (db.credentials ++ [(⟨db.nextId, m, hashPassword pw⟩ : Credential)])
      (fun c => c.mobile_number == m)
      = (some ⟨db.nextId, m, hashPassword pw⟩, false) := maybeSingle_one hfcB
  have hv : verifyPassword pw (hashPassword pw) = true := by
    simp [verifyPassword]
  rw [hE]
  have hS := signin_success_eq
    (⟨db.credentials ++ [⟨db.nextId, m, hashPassword pw⟩],
      db.profiles ++ [⟨db.nextId, fn, m, jsToLower un, false⟩],
      db.sessions ++ [⟨t1, db.nextId, now1 + thirtyDaysMs, true, now1⟩],
      db.nextId + 1⟩ : DB)
    m pw fn2 un2 st2 t2 now2 noStoreError ⟨db.nextId, m, hashPassword pw⟩ hm hp hms hv rfl
  rw [hS]
  refine ⟨rfl, rfl, rfl, ?_⟩
  simp only [okResp]
  simp [ht]

/-- Witness for C8: on the empty store, signup of mobile 111 with token t1
followed by signin with token t2 succeeds, and the two issued session tokens
differ. -/
theorem register_then_authenticate_witness :
    (mobileAuth dbEmpty ⟨some "signup", some "111", some "pw", some "Jo", some "abc", none⟩
        "t1" 5 noStoreError).1 = okResp dbEmpty.nextId "t1"
    ∧ (mobileAuth ((mobileAuth dbEmpty ⟨some "signup", some "111", some "pw", some "Jo",
          some "abc", none⟩ "t1" 5 noStoreError).2)
        ⟨some "signin", some "111", some "pw", none, none, none⟩ "t2" 6 noStoreError).1.success
      = true
    ∧ (mobileAuth dbEmpty ⟨some "signup", some "111", some "pw", some "Jo", some "abc", none⟩
        "t1" 5 noStoreError).1.session_token
      ≠ (mobileAuth ((mobileAuth dbEmpty ⟨some "signup", some "111", some "pw", some "Jo",
          some "abc", none⟩ "t1" 5 noStoreError).2)
        ⟨some "signin", some "111", some "pw", none, none, none⟩ "t2" 6
          noStoreError).1.session_token :=
  have h := register_then_authenticate dbEmpty "111" "pw" "Jo" "abc" none none none none
    "t1" "t2" 5 6 (by decide) (by decide) (by decide) (by decide) (by decide)
    (by simp [dbEmpty]) (by simp [dbEmpty]) (by decide)
  ⟨h.1, h.2.1, h.2.2.2⟩

/-- C6: a fresh valid registration succeeds; re-registering the same mobile
number is refused with the 400 conflict error and writes nothing; and
re-registering the same username in any letter case (under a fresh mobile
number) is refused with the 400 conflict error and writes nothing. -/
theorem register_conflicts (db : DB) (m pw fn un : String) (st : Option String)
    (t1 : String) (now1 : Nat)
    (m2 pw2 fn2 un2 : String) (st2 : Option String) (t2 : String) (now2 : Nat)
    (hm : m ≠ "") (hp : pw ≠ "") (hf : fn ≠ "") (hu : un ≠ "")
    (hreg : usernameRegexTest un = true)
    (hmob : ∀ c ∈ db.credentials, c.mobile_number ≠ m)
    (husr : ∀ p ∈ db.profiles, p.username ≠ jsToLower un)
    (hp2 : pw2 ≠ "") (hf2 : fn2 ≠ "") (hreg2 : usernameRegexTest un2 = true) :
    (mobileAuth db ⟨some "signup", some m, some pw, some fn, some un, st⟩ t1 now1 noStoreError).1
      = okResp db.nextId t1
    ∧ mobileAuth ((mobileAuth db ⟨some "signup", some m, some pw, some fn, some un, st⟩
          t1 now1 noStoreError).2)
        ⟨some "signup", some m, some pw2, some fn2, some un2, st2⟩ t2 now2 noStoreError
      = (errResp 400 "This mobile number is already registered",
         (mobileAuth db ⟨some "signup", some m, some pw, some fn, some un, st⟩ t1 now1 noStoreError).2)
    ∧ (jsToLower un2 = jsToLower un → (∀ c ∈ db.credentials, c.mobile_number ≠ m2) → m2 ≠ m →
        m2 ≠ "" →
        mobileAuth ((mobileAuth db ⟨some "signup", some m, some pw, some fn, some un, st⟩
            t1 now1 noStoreError).2)
          ⟨some "signup", some m2, some pw2, some fn2, some un2, st2⟩ t2 now2 noStoreError
        = (errResp 400 "This username is already taken",
           (mobileAuth db ⟨some "signup", some m, some pw, some fn, some un, st⟩
             t1 now1 noStoreError).2)) := by
  have hu2 : un2 ≠ "" := by
    intro h
    rw [h] at hreg2
    exact absurd hreg2 (by decide)
  have hE := signup_success db m pw fn un st t1 now1 hm hp hf hu hreg hmob husr
  refine ⟨by rw [hE], ?_, ?_⟩
  · rw [hE]
    have hfcB : (db.credentials ++ [(⟨db.nextId, m, hashPassword pw⟩ : Credential)]).filter
        (fun c => c.mobile_number == m) = [⟨db.nextId, m, hashPassword pw⟩] := by
      rw [List.filter_append,
        filter_key_nil (fun c : Credential => c.mobile_number) m db.credentials hmob]
      simp
    have hmsB : maybeSingle (db.credentials ++ [(⟨db.nextId, m, hashPassword pw⟩ : Credential)])
        (fun c => c.mobile_number == m)
        = (some ⟨db.nextId, m, hashPassword pw⟩, false) := maybeSingle_one hfcB
    simp only [mobileAuth, signupBranch, Option.getD_some, truthy, hmsB]
    simp [hm, hp2, hf2, hu2, hreg2]
  · intro hlc hm2db hm2m hm2
    rw [hE]
    have hfcC : (db.credentials ++ [(⟨db.nextId, m, hashPassword pw⟩ : Credential)]).filter
        (fun c => c.mobile_number == m2) = [] := by
      rw [List.filter_append,
        filter_key_nil (fun c : Credential => c.mobile_number) m2 db.credentials hm2db]
      have hmm : ¬ m = m2 := fun h => hm2m h.symm
      simp [hmm]
    have hmsC : maybeSingle (db.credentials ++ [(⟨db.nextId, m, hashPassword pw⟩ : Credential)])
        (fun c => c.mobile_number == m2) = (none, false) := maybeSingle_nil hfcC
    have hfpC : (db.profiles ++ [(⟨db.nextId, fn, m, jsToLower un, false⟩ : Profile)]).filter
        (fun p => p.username == jsToLower un2) = [⟨db.nextId, fn, m, jsToLower un, false⟩] := by
      rw [hlc, List.filter_append,
        filter_key_nil (fun p : Profile => p.username) (jsToLower un) db.profiles husr]
      simp
    have hmsP : maybeSingle (db.profiles ++ [(⟨db.nextId, fn, m, jsToLower un, false⟩ : Profile)])
        (fun p => p.username == jsToLower un2)
        = (some ⟨db.nextId, fn, m, jsToLower un, false⟩, false) := maybeSingle_one hfpC
    simp only [mobileAuth, signupBranch, Option.getD_some, truthy, hmsC, hmsP]
    simp [hm2, hp2, hf2, hu2, hreg2]

/-- Witness for C6 on the empty store: registering mobile 111 with username
Abc succeeds; registering mobile 111 again conflicts; registering username aBC
under fresh mobile 222 conflicts. -/
theorem register_conflicts_witness :
    (mobileAuth dbEmpty ⟨some "signup", some "111", some "pw", some "Jo", some "Abc", none⟩
        "t1" 5 noStoreError).1 = okResp dbEmpty.nextId "t1"
    ∧ mobileAuth ((mobileAuth dbEmpty ⟨some "signup", some "111", some "pw", some "Jo", some "Abc", none⟩
          "t1" 5 noStoreError).2)
        ⟨some "signup", some "111", some "pw", some "Jo", some "aBC", none⟩ "t2" 6 noStoreError
      = (errResp 400 "This mobile number is already registered",
         (mobileAuth dbEmpty ⟨some "signup", some "111", some "pw", some "Jo", some "Abc", none⟩
           "t1" 5 noStoreError).2)
    ∧ mobileAuth ((mobileAuth dbEmpty ⟨some "signup", some "111", some "pw", some "Jo", some "Abc", none⟩
          "t1" 5 noStoreError).2)
        ⟨some "signup", some "222", some "pw", some "Jo", some "aBC", none⟩ "t2" 6 noStoreError
      = (errResp 400 "This username is already taken",
         (mobileAuth dbEmpty ⟨some "signup", some "111", some "pw", some "Jo", some "Abc", none⟩
           "t1" 5 noStoreError).2) :=
  have h := register_conflicts dbEmpty "111" "pw" "Jo" "Abc" none "t1" 5
    "222" "pw" "Jo" "aBC" none "t2" 6 (by decide) (by decide) (by decide) (by decide)
    (by decide) (by simp [dbEmpty]) (by simp [dbEmpty]) (by decide) (by decide) (by decide)
  ⟨h.1, h.2.1, h.2.2 (by decide) (by simp [dbEmpty]) (by decide) (by decide)⟩

/-- C7: a signup request whose username is shorter than 3, longer than 30, or
contains a character outside letters, digits and underscore is refused with a
400 validation error and no table is written; and a username of length 3 to 30
over that alphabet passes the format validation (the handler never produces
the username-format error for it). -/
theorem signup_username_validation (db : DB) (m pw fn un : String) (st : Option String)
    (token : String) (now : Nat) (oc : StoreOracle) :
    ((un.length < 3 ∨ 30 < un.length ∨ ∃ c ∈ un.data, ¬ allowedUsernameChar c) →
      (mobileAuth db ⟨some "signup", some m, some pw, some fn, some un, st⟩ token now oc).1.status = 400
      ∧ (mobileAuth db ⟨some "signup", some m, some pw, some fn, some un, st⟩ token now oc).1.success = false
      ∧ (mobileAuth db ⟨some "signup", some m, some pw, some fn, some un, st⟩ token now oc).2 = db)
    ∧ ((3 ≤ un.length ∧ un.length ≤ 30 ∧ ∀ c ∈ un.data, allowedUsernameChar c) →
      (mobileAuth db ⟨some "signup", some m, some pw, some fn, some un, st⟩ token now oc).1.error
        ≠ some "Username must be 3-30 characters and only contain letters, numbers, and underscores") := by
  constructor
  · intro hbad
    have hreg : usernameRegexTest un = false := by
      rw [Bool.eq_false_iff]
      intro ht
      rcases (usernameRegexTest_iff un).mp ht with ⟨h3, h30, hall⟩
      rcases hbad with h | h | ⟨c, hc, hnc⟩
      · omega
      · omega
      · exact hnc (hall c hc)
    exact signup_bad_username db m pw fn un st token now oc hreg
  · intro hgood
    have hreg : usernameRegexTest un = true := (usernameRegexTest_iff un).mpr hgood
    unfold mobileAuth
    split
    · intro h
      simp [errResp] at h
    · rw [if_pos (by decide : ((some "signup" : Option String) == some "signup") = true)]
      split
      · intro h
        simp [errResp] at h
      · unfold signupBranch
        rw [if_neg (by simp [hreg])]
        split
        · intro h; simp [errResp] at h
        split
        · intro h; simp [errResp] at h
        split
        · intro h; simp [errResp] at h
        split
        · intro h; simp [errResp] at h
        split
        · intro h; simp [errResp] at h
        · intro h; simp [okResp] at h

/-- Witness for C7: the username "ab" (too short) is rejected with 400 on the
empty store, and "abc_123" passes the format validation there. -/
theorem signup_username_validation_witness :
    (mobileAuth dbEmpty ⟨some "signup", some "5551234", some "pw", some "Jo", some "ab", none⟩
        "tk" 0 noStoreError).1.status = 400
    ∧ (mobileAuth dbEmpty ⟨some "signup", some "5551234", some "pw", some "Jo", some "abc_123", none⟩
        "tk" 0 noStoreError).1.error
        ≠ some "Username must be 3-30 characters and only contain letters, numbers, and underscores" :=
  ⟨(signup_username_validation dbEmpty "5551234" "pw" "Jo" "ab" none "tk" 0 noStoreError).1
      (Or.inl (by decide)) |>.1,
   (signup_username_validation dbEmpty "5551234" "pw" "Jo" "abc_123" none "tk" 0 noStoreError).2
      (by refine ⟨by decide, by decide, ?_⟩; decide)⟩

/-- C10: a delete_discussion request under a validated session answers 404
when no discussion has the referenced id; when the discussion exists, it is
deleted (and nothing else) exactly when the caller owns the discussion or
created its community, and any other caller gets 403 with every table
unchanged.  The pairwise hypotheses are the primary-key uniqueness of the
discussion and community ids. -/
theorem delete_discussion_authorization (sdb : DB) (cdb : CommDB) (tok : String)
    (cid : Option Nat) (nm ds cv : Option String) (did : Nat) (now : Nat) (uid : Nat)
    (htok : tok ≠ "")
    (hval : validate_session sdb tok now = some uid)
    (hpwd : cdb.community_discussions.Pairwise (fun a b => a.id ≠ b.id))
    (hpwc : cdb.communities.Pairwise (fun a b => a.id ≠ b.id)) :
    ((∀ d ∈ cdb.community_discussions, d.id ≠ did) →
      manageCommunity sdb cdb ⟨some tok, some "delete_discussion", cid, nm, ds, cv, some did⟩ now
        = (cErr 404 "Discussion not found", cdb))
    ∧ (∀ d ∈ cdb.community_discussions, d.id = did →
        ((d.user_id = uid
            ∨ ∃ comm ∈ cdb.communities, comm.id = d.community_id ∧ comm.created_by = uid) →
          (manageCommunity sdb cdb ⟨some tok, some "delete_discussion", cid, nm, ds, cv,
              some did⟩ now).1 = cOk
          ∧ d ∉ (manageCommunity sdb cdb ⟨some tok, some "delete_discussion", cid, nm, ds, cv,
              some did⟩ now).2.community_discussions
          ∧ (∀ e ∈ cdb.community_discussions, e.id ≠ did →
              e ∈ (manageCommunity sdb cdb ⟨some tok, some "delete_discussion", cid, nm, ds, cv,
                some did⟩ now).2.community_discussions)
          ∧ (manageCommunity sdb cdb ⟨some tok, some "delete_discussion", cid, nm, ds, cv,
              some did⟩ now).2.communities = cdb.communities
          ∧ (manageCommunity sdb cdb ⟨some tok, some "delete_discussion", cid, nm, ds, cv,
              some did⟩ now).2.community_members = cdb.community_members)
        ∧ (¬(d.user_id = uid
              ∨ ∃ comm ∈ cdb.communities, comm.id = d.community_id ∧ comm.created_by = uid) →
          manageCommunity sdb cdb ⟨some tok, some "delete_discussion", cid, nm, ds, cv,
              some did⟩ now
            = (cErr 403 "Not authorized to delete this discussion", cdb))) := by
  have hrun : manageCommunity sdb cdb ⟨some tok, some "delete_discussion", cid, nm, ds, cv,
      some did⟩ now
      = (match maybeSingle cdb.community_discussions (fun d => d.id == did) with
         | (none, _) => (cErr 404 "Discussion not found", cdb)
         | (some discussion, fetchError) =>
           if fetchError then (cErr 404 "Discussion not found", cdb)
           else
             let isOwner := discussion.user_id == uid
             let isAdmin :=
               if isOwner then false
               else
                 match (maybeSingle cdb.communities
                     (fun c => c.id == discussion.community_id)).1 with
                 | some community => community.created_by == uid
                 | none => false
             if !isOwner && !isAdmin then
               (cErr 403 "Not authorized to delete this discussion", cdb)
             else
               (cOk, { cdb with community_discussions :=
                  cdb.community_discussions.filter (fun d => !(d.id == did)) })) := by
    simp only [manageCommunity, Option.getD_some, hval, truthy]
    simp [htok]
  constructor
  · intro hall
    have hms : maybeSingle cdb.community_discussions (fun d => d.id == did) = (none, false) :=
      maybeSingle_nil (filter_key_nil (fun d : Discussion => d.id) did
        cdb.community_discussions hall)
    rw [hms] at hrun
    exact hrun
  · intro d hd hdid
    have hms : maybeSingle cdb.community_discussions (fun a => a.id == did) = (some d, false) :=
      maybeSingle_one (filter_key_singleton (fun a : Discussion => a.id) did
        cdb.community_discussions hpwd d hd hdid)
    rw [hms] at hrun
    constructor
    · intro hauth
      have hdel : manageCommunity sdb cdb ⟨some tok, some "delete_discussion", cid, nm, ds, cv,
          some did⟩ now
          = (cOk, { cdb with community_discussions :=
              cdb.community_discussions.filter (fun a => !(a.id == did)) }) := by
        rcases hauth with hown | ⟨comm, hcm, hcid, hcb⟩
        · rw [hrun]
          simp [hown]
        · by_cases hown : d.user_id = uid
          · rw [hrun]
            simp [hown]
          · have hcms : maybeSingle cdb.communities (fun a => a.id == d.community_id)
                = (some comm, false) :=
              maybeSingle_one (filter_key_singleton (fun a : Community => a.id) d.community_id
                cdb.communities hpwc comm hcm hcid)
            rw [hrun]
            simp [hown, hcms, hcb]
      rw [hdel]
      refine ⟨rfl, ?_, ?_, rfl, rfl⟩
      · intro hmem
        rw [List.mem_filter] at hmem
        simp [hdid] at hmem
      · intro e he hne
        exact List.mem_filter.mpr ⟨he, by simp [hne]⟩
    · intro hnauth
      push_neg at hnauth
      obtain ⟨hnown, hnoadm⟩ := hnauth
      by_cases hcomm : ∃ comm ∈ cdb.communities, comm.id = d.community_id
      · obtain ⟨comm, hcm, hcid⟩ := hcomm
        have hcms : maybeSingle cdb.communities (fun a => a.id == d.community_id)
            = (some comm, false) :=
          maybeSingle_one (filter_key_singleton (fun a : Community => a.id) d.community_id
            cdb.communities hpwc comm hcm hcid)
        have hnb : comm.created_by ≠ uid := hnoadm comm hcm hcid
        rw [hrun]
        simp [hnown, hcms, hnb]
      · have hcms : maybeSingle cdb.communities (fun a => a.id == d.community_id)
            = (none, false) := by
          apply maybeSingle_nil
          apply filter_key_nil (fun a : Community => a.id) d.community_id
          intro a ha hai
          exact hcomm ⟨a, ha, hai⟩
        rw [hrun]
        simp [hnown, hcms]

/-- Witness for C10 on a concrete store: the owner (user 5) deletes their
discussion 2; user 6, neither owner nor community creator, gets 403 for the
same discussion and nothing changes; a request for absent discussion 99 gets
404. -/
theorem delete_discussion_authorization_witness :
    (manageCommunity sdbC10 cdbC10 ⟨some "sess10", some "delete_discussion", none, none, none,
        none, some 2⟩ 100).1 = cOk
    ∧ manageCommunity sdbC10 cdbC10 ⟨some "sess11", some "delete_discussion", none, none, none,
        none, some 2⟩ 100
      = (cErr 403 "Not authorized to delete this discussion", cdbC10)
    ∧ manageCommunity sdbC10 cdbC10 ⟨some "sess10", some "delete_discussion", none, none, none,
        none, some 99⟩ 100
      = (cErr 404 "Discussion not found", cdbC10) :=
  have h5 := delete_discussion_authorization sdbC10 cdbC10 "sess10" none none none none 2 100 5
    (by decide) rfl (by simp [cdbC10]) (by simp [cdbC10])
  have h6 := delete_discussion_authorization sdbC10 cdbC10 "sess11" none none none none 2 100 6
    (by decide) rfl (by simp [cdbC10]) (by simp [cdbC10])
  have h99 := delete_discussion_authorization sdbC10 cdbC10 "sess10" none none none none 99 100 5
    (by decide) rfl (by simp [cdbC10]) (by simp [cdbC10])
  ⟨((h5.2 ⟨2, 1, 5, "hello"⟩ (by simp [cdbC10]) rfl).1 (Or.inl rfl)).1,
   (h6.2 ⟨2, 1, 5, "hello"⟩ (by simp [cdbC10]) rfl).2 (by decide),
   h99.1 (by decide)⟩

/-- Witness for C9: a delete request with no session token at all is refused
with 401 and the tables are untouched. -/
theorem manageCommunity_unauthenticated_witness :
    (manageCommunity dbEmpty cdbC10 ⟨none, some "delete", some 1, none, none, none, none⟩ 0).1.status = 401
    ∧ (manageCommunity dbEmpty cdbC10 ⟨none, some "delete", some 1, none, none, none, none⟩ 0).2 = cdbC10 :=
  manageCommunity_unauthenticated dbEmpty cdbC10 _ 0 (Or.inl rfl)

end Entrepedia
